import Mathlib

/-!
Verification development for the RAPTRS flight-management-unit core:
the SOC communication mailbox (`src/software/src/fmu/comms.h`), the
mission mode/state scheduler and main control loop
(`src/software/src/fmu/main.cpp`), and the SOC-side route manager
(`src/software/src/soc/flight/route_mgr.cpp`).

The implementation files `comms.cpp` and `mission.cpp` are not part of
the source tree here (only the class declaration `comms.h` and the
callers in `main.cpp` are), so the mailbox operations and the mission
scheduler's mode/state bookkeeping are modelled from the specification;
each such definition carries a doc comment saying so.  The control-loop
body itself is translated directly from `main.cpp`, and the route
manager directly from `route_mgr.cpp`.
-/

/-- Message kinds of the SOC link (enum `AircraftSocComms::Message` in comms.h). -/
inductive Message where
  | ModeCommand
  | Configuration
  | SensorData
  | EffectorCommand
deriving DecidableEq, Repr

/-- Modelled from the spec: `mission.h` is not under src/.  The vehicle operating
mode enum `AircraftMission::Mode`, with at least `Run` and `Configuration`. -/
inductive AircraftMission.Mode where
  | Configuration
  | Run
deriving DecidableEq, Repr

/-- Modelled from the spec: `mission.h` is not under src/.  The per-iteration
scheduler state enum `AircraftMission::State`. -/
inductive AircraftMission.State where
  | SyncDataCollection
  | AsyncDataCollection
  | FlightControl
  | EffectorOutput
deriving DecidableEq, Repr

/-- Byte encoding of a message kind (one kind byte on the wire, §6). -/
def kindToByte : Message → Nat
  | .ModeCommand => 0
  | .Configuration => 1
  | .SensorData => 2
  | .EffectorCommand => 3

/-- Decoding of a kind byte; unknown bytes have no kind (malformed frame). -/
def byteToKind : Nat → Option Message
  | 0 => some .ModeCommand
  | 1 => some .Configuration
  | 2 => some .SensorData
  | 3 => some .EffectorCommand
  | _ => none

/-- Maximum supported payload length of one frame (two length bytes on the wire). -/
def maxPayloadLength : Nat := 65535

/-- Frame layout from §6: `[kind: 1 byte][length bytes][payload]`, with a
two-byte little-endian length field. -/
def encodeFrame (k : Message) (p : List Nat) : List Nat :=
  kindToByte k :: (p.length % 256) :: (p.length / 256 % 256) :: p

/-- Decode one raw frame into `(kind, payload)`; `none` on a malformed frame
(unknown kind byte or length mismatch). -/
def decodeFrame (bytes : List Nat) : Option (Message × List Nat) :=
  match bytes with
  | kb :: l0 :: l1 :: rest =>
    match byteToKind kb with
    | some k => if rest.length = l0 + 256 * l1 then some (k, rest) else none
    | none => none
  | _ => none

/-- The SOC communication mailbox (class `AircraftSocComms` in comms.h):
the single received-message slot (`MessageReceived_`, `ReceivedMessage_`,
`ReceivedPayload_`), plus the transport modelled as a reliable ordered
channel of complete raw frames in each direction. -/
structure AircraftSocComms where
  messageReceived : Bool
  receivedMessage : Message
  receivedPayload : List Nat
  rx : List (List Nat)
  tx : List (List Nat)
deriving DecidableEq, Repr

/-- A mailbox with no pending message and empty channels. -/
def emptyComms : AircraftSocComms :=
  { messageReceived := false
    receivedMessage := .ModeCommand
    receivedPayload := []
    rx := []
    tx := [] }

/-- Modelled from the spec: `comms.cpp` is not under src/ (only the declaration
`AircraftSocComms::CheckMessages` in comms.h).  Per §4.1, `pump()` is a
non-blocking poll: if a complete frame is available it decodes it and stores it
as the single pending message, overwriting any unconsumed one; a malformed
frame is dropped silently; with no data it returns with no state change. -/
def AircraftSocComms.CheckMessages (c : AircraftSocComms) : AircraftSocComms :=
  match c.rx with
  | [] => c
  | f :: rest =>
    match decodeFrame f with
    | some kp =>
      { c with messageReceived := true
               receivedMessage := kp.1
               receivedPayload := kp.2
               rx := rest }
    | none => { c with rx := rest }

/-- Modelled from the spec: `comms.cpp` is not under src/.  `send(kind, payload)`
frames the message and writes it to the transport, fire-and-forget (§4.1). -/
def AircraftSocComms.SendMessage (c : AircraftSocComms) (k : Message) (p : List Nat) :
    AircraftSocComms :=
  { c with tx := c.tx ++ [encodeFrame k p] }

/-- Modelled from the spec: `comms.cpp` is not under src/.
`sendSensorTelemetry(buffer)` is `send(SensorData, buffer)` (§4.1). -/
def AircraftSocComms.SendSensorData (c : AircraftSocComms) (buf : List Nat) :
    AircraftSocComms :=
  c.SendMessage .SensorData buf

/-- Modelled from the spec: `comms.cpp` is not under src/.
`tryReceive(expectedKind)` returns the pending payload and clears the slot only
when the pending kind matches `expectedKind`; otherwise it leaves the slot
untouched and reports absent (§4.1). -/
def AircraftSocComms.tryReceive (c : AircraftSocComms) (expected : Message) :
    Option (List Nat) × AircraftSocComms :=
  if c.messageReceived = true ∧ c.receivedMessage = expected then
    (some c.receivedPayload, { c with messageReceived := false })
  else
    (none, c)

/-- Modelled from the spec: typed accessors decode the pending payload
themselves; on a decode failure the accessor reports failure and the slot is
left for the caller's retry policy, not cleared (§4.1). -/
def AircraftSocComms.tryReceiveDecoded {α : Type} (dec : List Nat → Option α)
    (k : Message) (c : AircraftSocComms) : Option α × AircraftSocComms :=
  if c.messageReceived = true ∧ c.receivedMessage = k then
    match dec c.receivedPayload with
    | some v => (some v, { c with messageReceived := false })
    | none => (none, c)
  else
    (none, c)

/-- Modelled from the spec: a mode payload decodes to one enum value from a
single enum-coded byte (§6). -/
def decodeModeByte : Nat → Option AircraftMission.Mode
  | 0 => some .Configuration
  | 1 => some .Run
  | _ => none

/-- Mode payloads are exactly one byte. -/
def decodeModePayload : List Nat → Option AircraftMission.Mode
  | [b] => decodeModeByte b
  | _ => none

/-- A 4-byte float bit pattern; the numeric interpretation is collaborator-owned
and never examined by the core, so it stays an uninterpreted byte quadruple. -/
abbrev FloatWord := Nat × Nat × Nat × Nat

/-- Group a payload into consecutive 4-byte float words; fails when the length
is not a multiple of 4. -/
def chunk4 : List Nat → Option (List FloatWord)
  | [] => some []
  | a :: b :: c :: d :: rest => (chunk4 rest).map (fun l => (a, b, c, d) :: l)
  | _ => none

/-- Flatten float words back into the payload byte order. -/
def flatten4 : List FloatWord → List Nat
  | [] => []
  | (a, b, c, d) :: rest => a :: b :: c :: d :: flatten4 rest

/-- Modelled from the spec: `comms.cpp` is not under src/.  Typed accessor for a
pending ModeCommand message (declaration `AircraftSocComms::ReceiveModeCommand`
in comms.h). -/
def AircraftSocComms.ReceiveModeCommand (c : AircraftSocComms) :
    Option AircraftMission.Mode × AircraftSocComms :=
  AircraftSocComms.tryReceiveDecoded decodeModePayload .ModeCommand c

/-- Modelled from the spec: `comms.cpp` is not under src/.  Typed accessor for a
pending Configuration message; the payload is handed to the caller verbatim
(declaration `AircraftSocComms::ReceiveConfigMessage` in comms.h). -/
def AircraftSocComms.ReceiveConfigMessage (c : AircraftSocComms) :
    Option (List Nat) × AircraftSocComms :=
  AircraftSocComms.tryReceiveDecoded some .Configuration c

/-- Modelled from the spec: `comms.cpp` is not under src/.  Typed accessor for a
pending EffectorCommand message: the payload decodes to floats whose count is
payload-length / 4, failing when the length is not a multiple of 4
(declaration `AircraftSocComms::ReceiveEffectorCommand` in comms.h). -/
def AircraftSocComms.ReceiveEffectorCommand (c : AircraftSocComms) :
    Option (List FloatWord) × AircraftSocComms :=
  AircraftSocComms.tryReceiveDecoded chunk4 .EffectorCommand c

/-- Modelled from the spec: `mission.cpp` is not under src/.  The mission
scheduler's state: current mode, the staged requested mode, the three
scheduler flags, and the per-iteration state value. -/
structure AircraftMission where
  mode : AircraftMission.Mode
  requestedMode : AircraftMission.Mode
  imuDataReady : Bool
  flightControlFlag : Bool
  effectorOutputFlag : Bool
  state : AircraftMission.State
deriving DecidableEq, Repr

/-- Modelled from the spec: the interrupt handler sets the IMU-data-ready flag. -/
def AircraftMission.SetImuDataReady (m : AircraftMission) : AircraftMission :=
  { m with imuDataReady := true }

/-- Modelled from the spec: the scheduler clears the IMU-data-ready flag on
consumption. -/
def AircraftMission.ClearImuDataReady (m : AircraftMission) : AircraftMission :=
  { m with imuDataReady := false }

/-- Modelled from the spec: the handler clears the flight-control flag on
consumption. -/
def AircraftMission.ClearFlightControlFlag (m : AircraftMission) : AircraftMission :=
  { m with flightControlFlag := false }

/-- Modelled from the spec: the handler clears the effector-output flag on
consumption. -/
def AircraftMission.ClearEffectorOutputFlag (m : AircraftMission) : AircraftMission :=
  { m with effectorOutputFlag := false }

/-- Modelled from the spec: an externally requested mode change is staged as
`RequestedMode`, never applied directly by the mailbox (§3). -/
def AircraftMission.SetRequestedMode (m : AircraftMission) (md : AircraftMission.Mode) :
    AircraftMission :=
  { m with requestedMode := md }

/-- Modelled from the spec: `mission.cpp` is not under src/.  The staged
requested mode is applied once per iteration, at a fixed point before state
evaluation, regardless of the current mode (§4.2). -/
def AircraftMission.UpdateMode (m : AircraftMission) : AircraftMission :=
  { m with mode := m.requestedMode }

/-- Modelled from the spec: `mission.cpp` is not under src/.  `main.cpp` reads a
single current `State` per iteration, so state selection resolves the flags in
the fixed priority order of §4.2 — IMU-ready first, then flight control, then
effector output — with the unconditional `AsyncDataCollection` as the default
when no flag is pending. -/
def AircraftMission.UpdateState (m : AircraftMission) : AircraftMission :=
  { m with state :=
      if m.imuDataReady then .SyncDataCollection
      else if m.flightControlFlag then .FlightControl
      else if m.effectorOutputFlag then .EffectorOutput
      else .AsyncDataCollection }

/-- Observable collaborator calls made by one pass of the control loop
(`main.cpp`), recorded in program order. -/
inductive Ev where
  | updateMode
  | updateState
  | clearImuDataReady
  | readSyncSensors
  | sendSensorData (buf : List Nat)
  | readAsyncSensors
  | clearFlightControlFlag
  | controlRun (i : Nat)
  | computeOutputs (throttleSafed : Bool)
  | clearEffectorOutputFlag
  | commandEffectors
  | setCommands (cmds : List FloatWord) (throttleSafed : Bool)
  | configUpdate (cfg : List Nat)
  | setRequestedMode (md : AircraftMission.Mode)
  | tryReceiveCall (k : Message)
  | pump
deriving DecidableEq, Repr

/-- The whole-system state threaded through the loop in `main.cpp`: the mission
scheduler, the SOC mailbox, and the collaborator-owned values the loop reads
(`Control.ActiveControlLevels()`, `Mission.ThrottleSafed()`,
`Mission.UseSocEffectorComands()`, and the sensor data buffer). -/
structure Sys where
  mission : AircraftMission
  comms : AircraftSocComms
  activeControlLevels : Nat
  throttleSafed : Bool
  useSocEffectorCommands : Bool
  dataBuffer : List Nat
deriving DecidableEq, Repr

/-- `main.cpp:89-98` — `SyncDataCollection`: clear the IMU flag, read the
synchronous sensors, and transmit the data buffer to the SOC. -/
def syncStep (st : AircraftMission.State) (s : Sys) : Sys × List Ev :=
  if st = .SyncDataCollection then
    ({ s with mission := s.mission.ClearImuDataReady
              comms := s.comms.SendSensorData s.dataBuffer },
     [.clearImuDataReady, .readSyncSensors, .sendSensorData s.dataBuffer])
  else (s, [])

/-- `main.cpp:99-102` — `AsyncDataCollection`: read the asynchronous sensors. -/
def asyncStep (st : AircraftMission.State) (s : Sys) : Sys × List Ev :=
  if st = .AsyncDataCollection then (s, [.readAsyncSensors]) else (s, [])

/-- `main.cpp:103-111` — `FlightControl`: clear the flag first, run every active
control level in order, then compute effector outputs. -/
def fcStep (st : AircraftMission.State) (s : Sys) : Sys × List Ev :=
  if st = .FlightControl then
    ({ s with mission := s.mission.ClearFlightControlFlag },
     .clearFlightControlFlag ::
       ((List.range s.activeControlLevels).map Ev.controlRun ++
         [.computeOutputs s.throttleSafed]))
  else (s, [])

/-- `main.cpp:112-116` — `EffectorOutput`: clear the flag first, then command
the effectors to move. -/
def eoStep (st : AircraftMission.State) (s : Sys) : Sys × List Ev :=
  if st = .EffectorOutput then
    ({ s with mission := s.mission.ClearEffectorOutputFlag },
     [.clearEffectorOutputFlag, .commandEffectors])
  else (s, [])

/-- `main.cpp:117-123` — poll for an effector command from the SOC and, when
present and the SOC-override policy permits, apply it. -/
def socEffStep (s : Sys) : Sys × List Ev :=
  let rc := s.comms.ReceiveEffectorCommand
  let s' := { s with comms := rc.2 }
  match rc.1 with
  | some cmds =>
    if s.useSocEffectorCommands then
      (s', [.tryReceiveCall .EffectorCommand, .setCommands cmds s.throttleSafed])
    else (s', [.tryReceiveCall .EffectorCommand])
  | none => (s', [.tryReceiveCall .EffectorCommand])

/-- `main.cpp:125-132` — in Configuration mode, poll for a configuration
message and hand it verbatim to `Config.Update`. -/
def configStep (s : Sys) : Sys × List Ev :=
  let rc := s.comms.ReceiveConfigMessage
  let s' := { s with comms := rc.2 }
  match rc.1 with
  | some cfg => (s', [.tryReceiveCall .Configuration, .configUpdate cfg])
  | none => (s', [.tryReceiveCall .Configuration])

/-- `main.cpp:133-136` — poll for a mode command and stage it via
`SetRequestedMode`, in every iteration regardless of mode. -/
def modeCmdStep (s : Sys) : Sys × List Ev :=
  let rc := s.comms.ReceiveModeCommand
  match rc.1 with
  | some md =>
    ({ s with comms := rc.2, mission := s.mission.SetRequestedMode md },
     [.tryReceiveCall .ModeCommand, .setRequestedMode md])
  | none => ({ s with comms := rc.2 }, [.tryReceiveCall .ModeCommand])

/-- `main.cpp:85-124` — the whole Run-mode block: update the scheduler state,
read it once into `MissionState`, evaluate the current state's handler, and
poll for an effector command from the SOC. -/
def runStates (s : Sys) : Sys × List Ev :=
  let sR := { s with mission := s.mission.UpdateState }
  let st := sR.mission.state
  let p1 := syncStep st sR
  let p2 := asyncStep st p1.1
  let p3 := fcStep st p2.1
  let p4 := eoStep st p3.1
  let p5 := socEffStep p4.1
  (p5.1, Ev.updateState :: (p1.2 ++ p2.2 ++ p3.2 ++ p4.2 ++ p5.2))

/-- One pass of the `while (1)` loop body of `main` (`main.cpp:81-139`):
update the mode, then — in Run mode — update the state and evaluate the
current state's handler and the SOC effector-command poll; in Configuration
mode service the configuration message; then stage any mode command; and
finally `CheckMessages()` pumps the transport once. -/
def loopBody (s : Sys) : Sys × List Ev :=
  let s1 := { s with mission := s.mission.UpdateMode }
  let missionMode := s1.mission.mode
  let runPart := if missionMode = .Run then runStates s1 else (s1, [])
  let cfgPart :=
    if missionMode = .Configuration then configStep runPart.1
    else (runPart.1, [])
  let mcPart := modeCmdStep cfgPart.1
  let s5 := { mcPart.1 with comms := mcPart.1.comms.CheckMessages }
  (s5, Ev.updateMode :: (runPart.2 ++ cfgPart.2 ++ mcPart.2 ++ [Ev.pump]))

/-- Iterate the loop body `n` times with no external events in between,
concatenating the iteration traces. -/
def runN : Nat → Sys → Sys × List Ev
  | 0, s => (s, [])
  | n + 1, s =>
    let p := loopBody s
    let q := runN n p.1
    (q.1, p.2 ++ q.2)

/-- Event discriminator: the pump (`CheckMessages`) call. -/
def isPump : Ev → Bool
  | .pump => true
  | _ => false

/-- Event discriminator: a `tryReceive` poll for kind `k`. -/
def isTryReceive (k : Message) : Ev → Bool
  | .tryReceiveCall k' => k' = k
  | _ => false

/-- Event discriminator: the flight-control handler's flag clear. -/
def isClearFC : Ev → Bool
  | .clearFlightControlFlag => true
  | _ => false

/-- Event discriminator: the effector-output handler's flag clear. -/
def isClearEO : Ev → Bool
  | .clearEffectorOutputFlag => true
  | _ => false

/-- Event discriminator: the asynchronous sensor read. -/
def isReadAsync : Ev → Bool
  | .readAsyncSensors => true
  | _ => false

/-- Event discriminator: a `Config.Update` call. -/
def isConfigUpdate : Ev → Bool
  | .configUpdate _ => true
  | _ => false

/-- Event discriminator: an `Effectors.SetCommands` call. -/
def isSetCommands : Ev → Bool
  | .setCommands _ _ => true
  | _ => false

/-- A waypoint of a route; its coordinate payload is collaborator-owned
(`SGWayPoint` is constructed by the waypoint collaborator), so it is kept
abstract. -/
structure SGWayPoint where
  id : Nat
deriving DecidableEq, Repr

/-- A route: an ordered waypoint list with a current-waypoint index
(the `SGRoute` collaborator interface used by route_mgr.cpp). -/
structure SGRoute where
  waypoints : List SGWayPoint
  current : Nat
deriving DecidableEq, Repr

/-- `SGRoute::size()`. -/
def SGRoute.size (r : SGRoute) : Nat := r.waypoints.length

/-- `SGRoute::clear()`. -/
def SGRoute.clear (_r : SGRoute) : SGRoute := { waypoints := [], current := 0 }

/-- `SGRoute::add_waypoint(wpt)`. -/
def SGRoute.add_waypoint (r : SGRoute) (w : SGWayPoint) : SGRoute :=
  { r with waypoints := r.waypoints ++ [w] }

/-- `SGRoute::set_current(i)`. -/
def SGRoute.set_current (r : SGRoute) (i : Nat) : SGRoute := { r with current := i }

/-- The `"waypoints"` member of the route configuration JSON: absent, or a list
of waypoint values (route_mgr.cpp:225-231). -/
structure RouteConfig where
  waypoints : Option (List SGWayPoint)
deriving DecidableEq, Repr

/-- The route manager's state relevant to `build` and `swap`: the active and
standby routes and the `pos_set` flag (route_mgr.cpp). -/
structure FGRouteMgr where
  active : SGRoute
  standby : SGRoute
  pos_set : Bool
deriving DecidableEq, Repr

/-- `FGRouteMgr::build` (route_mgr.cpp:223-234): clear the standby route, add a
waypoint for each entry of the configuration's `"waypoints"` member if present,
and return true. -/
def FGRouteMgr.build (r : FGRouteMgr) (cfg : RouteConfig) : FGRouteMgr × Bool :=
  let st0 := r.standby.clear
  let st1 :=
    match cfg.waypoints with
    | some ws => ws.foldl SGRoute.add_waypoint st0
    | none => st0
  ({ r with standby := st1 }, true)

/-- The condition of the fatal branch in `FGRouteMgr::init`
(route_mgr.cpp:62-66): `build` reported an inconsistent route, upon which init
prints an error and calls `exit(-1)`. -/
def FGRouteMgr.initRouteInconsistencyFatal (r : FGRouteMgr) (cfg : RouteConfig) : Bool :=
  !(FGRouteMgr.build r cfg).2

/-- `FGRouteMgr::swap` (route_mgr.cpp:203-219): fail and change nothing when
the standby route is empty; otherwise exchange the routes, point the new
active route at waypoint 0, and clear `pos_set`. -/
def FGRouteMgr.swap (r : FGRouteMgr) : Bool × FGRouteMgr :=
  if r.standby.size = 0 then
    (false, r)
  else
    (true, { r with active := r.standby.set_current 0
                    standby := r.active
                    pos_set := false })

theorem decodeFrame_encodeFrame (k : Message) (p : List Nat)
    (h : p.length ≤ maxPayloadLength) :
    decodeFrame (encodeFrame k p) = some (k, p) := by
  have hb : byteToKind (kindToByte k) = some k := by cases k <;> rfl
  have hdiv : p.length / 256 % 256 = p.length / 256 := by
    apply Nat.mod_eq_of_lt
    have hd : p.length / 256 ≤ maxPayloadLength / 256 := Nat.div_le_div_right h
    simp [maxPayloadLength] at hd
    omega
  have hlen : p.length % 256 + 256 * (p.length / 256 % 256) = p.length := by
    rw [hdiv, Nat.mod_add_div]
  simp [decodeFrame, encodeFrame, hb, hlen]

/-- C9: `FGRouteMgr::build` returns true for every configuration input — it
never reports an inconsistent route — so the fatal branch in
`FGRouteMgr::init` that prints an inconsistency message and calls `exit(-1)`
when `build` returns false is unreachable. -/
theorem build_true_init_fatal_unreachable (r : FGRouteMgr) (cfg : RouteConfig) :
    (FGRouteMgr.build r cfg).2 = true ∧
      FGRouteMgr.initRouteInconsistencyFatal r cfg = false := by
  constructor <;>
    simp [FGRouteMgr.build, FGRouteMgr.initRouteInconsistencyFatal]

/-- C10: `FGRouteMgr::swap` is atomic on failure: with an empty standby route
it returns false and changes nothing (active route, standby route, current
waypoint index, and `pos_set` all unchanged); otherwise it returns true,
exchanges the routes, points the new active route at waypoint 0, and clears
`pos_set`. -/
theorem swap_atomic (r : FGRouteMgr) :
    (r.standby.size = 0 → FGRouteMgr.swap r = (false, r)) ∧
    (r.standby.size ≠ 0 →
      (FGRouteMgr.swap r).1 = true ∧
      (FGRouteMgr.swap r).2.active.waypoints = r.standby.waypoints ∧
      (FGRouteMgr.swap r).2.active.current = 0 ∧
      (FGRouteMgr.swap r).2.standby = r.active ∧
      (FGRouteMgr.swap r).2.pos_set = false) := by
  constructor
  · intro h
    simp [FGRouteMgr.swap, h]
  · intro h
    simp [FGRouteMgr.swap, h, SGRoute.set_current]

theorem swap_atomic_witness :
    (FGRouteMgr.swap
        { active := { waypoints := [⟨5⟩], current := 0 }
          standby := { waypoints := [], current := 3 }
          pos_set := true } =
      (false,
        { active := { waypoints := [⟨5⟩], current := 0 }
          standby := { waypoints := [], current := 3 }
          pos_set := true })) ∧
    ((FGRouteMgr.swap
        { active := { waypoints := [⟨5⟩], current := 0 }
          standby := { waypoints := [⟨8⟩, ⟨9⟩], current := 1 }
          pos_set := true }).1 = true ∧
      (FGRouteMgr.swap
        { active := { waypoints := [⟨5⟩], current := 0 }
          standby := { waypoints := [⟨8⟩, ⟨9⟩], current := 1 }
          pos_set := true }).2.active.waypoints = [⟨8⟩, ⟨9⟩] ∧
      (FGRouteMgr.swap
        { active := { waypoints := [⟨5⟩], current := 0 }
          standby := { waypoints := [⟨8⟩, ⟨9⟩], current := 1 }
          pos_set := true }).2.active.current = 0 ∧
      (FGRouteMgr.swap
        { active := { waypoints := [⟨5⟩], current := 0 }
          standby := { waypoints := [⟨8⟩, ⟨9⟩], current := 1 }
          pos_set := true }).2.standby = { waypoints := [⟨5⟩], current := 0 } ∧
      (FGRouteMgr.swap
        { active := { waypoints := [⟨5⟩], current := 0 }
          standby := { waypoints := [⟨8⟩, ⟨9⟩], current := 1 }
          pos_set := true }).2.pos_set = false) :=
  ⟨(swap_atomic _).1 (by decide), (swap_atomic _).2 (by decide)⟩

/-- C5: kind-selective drain — when the pending message's kind differs from
`expectedKind`, `tryReceive` reports absent and leaves the whole slot
unchanged, and a subsequent `tryReceive` with the pending kind (no intervening
pump) still returns the payload and clears the slot. -/
theorem tryReceive_kind_selective (c : AircraftSocComms) (k' : Message)
    (hp : c.messageReceived = true) (hk : k' ≠ c.receivedMessage) :
    c.tryReceive k' = (none, c) ∧
    (c.tryReceive c.receivedMessage).1 = some c.receivedPayload ∧
    (c.tryReceive c.receivedMessage).2 = { c with messageReceived := false } := by
  refine ⟨?_, ?_, ?_⟩ <;>
    simp [AircraftSocComms.tryReceive, hp, Ne.symm hk]

theorem tryReceive_kind_selective_witness :
    (AircraftSocComms.tryReceive
        { messageReceived := true, receivedMessage := .Configuration,
          receivedPayload := [9, 9], rx := [], tx := [] } .SensorData =
      (none,
        { messageReceived := true, receivedMessage := .Configuration,
          receivedPayload := [9, 9], rx := [], tx := [] })) ∧
    (AircraftSocComms.tryReceive
        { messageReceived := true, receivedMessage := .Configuration,
          receivedPayload := [9, 9], rx := [], tx := [] } .Configuration).1 =
      some [9, 9] ∧
    (AircraftSocComms.tryReceive
        { messageReceived := true, receivedMessage := .Configuration,
          receivedPayload := [9, 9], rx := [], tx := [] } .Configuration).2 =
      { messageReceived := false, receivedMessage := .Configuration,
        receivedPayload := [9, 9], rx := [], tx := [] } :=
  tryReceive_kind_selective _ .SensorData (by decide) (by decide)

/-- C2: single-slot overwrite — with two frames S1 then S2 arriving and one
pump per arrival, only S2's kind and payload are stored, and any `tryReceive`
of any kind returns either absent or S2's payload, never S1's. -/
theorem mailbox_single_slot_overwrite (c : AircraftSocComms) (k1 k2 : Message)
    (p1 p2 : List Nat) (h1 : p1.length ≤ maxPayloadLength)
    (h2 : p2.length ≤ maxPayloadLength)
    (hrx : c.rx = [encodeFrame k1 p1, encodeFrame k2 p2]) :
    c.CheckMessages.CheckMessages.messageReceived = true ∧
    c.CheckMessages.CheckMessages.receivedMessage = k2 ∧
    c.CheckMessages.CheckMessages.receivedPayload = p2 ∧
    ∀ k, (c.CheckMessages.CheckMessages.tryReceive k).1 = none ∨
      (c.CheckMessages.CheckMessages.tryReceive k).1 = some p2 := by
  have hstep : c.CheckMessages.CheckMessages =
      { c with messageReceived := true, receivedMessage := k2,
               receivedPayload := p2, rx := [] } := by
    simp [AircraftSocComms.CheckMessages, hrx,
      decodeFrame_encodeFrame k1 p1 h1, decodeFrame_encodeFrame k2 p2 h2]
  rw [hstep]
  refine ⟨rfl, rfl, rfl, ?_⟩
  intro k
  by_cases hk : k2 = k
  · right
    simp [AircraftSocComms.tryReceive, hk]
  · left
    simp [AircraftSocComms.tryReceive, hk]

theorem mailbox_single_slot_overwrite_witness :
    ({ messageReceived := false, receivedMessage := .ModeCommand,
       receivedPayload := [],
       rx := [encodeFrame .Configuration [1], encodeFrame .EffectorCommand [5, 6, 7, 8]],
       tx := [] : AircraftSocComms
     }).CheckMessages.CheckMessages.messageReceived = true ∧
    ({ messageReceived := false, receivedMessage := .ModeCommand,
       receivedPayload := [],
       rx := [encodeFrame .Configuration [1], encodeFrame .EffectorCommand [5, 6, 7, 8]],
       tx := [] : AircraftSocComms
     }).CheckMessages.CheckMessages.receivedMessage = .EffectorCommand ∧
    ({ messageReceived := false, receivedMessage := .ModeCommand,
       receivedPayload := [],
       rx := [encodeFrame .Configuration [1], encodeFrame .EffectorCommand [5, 6, 7, 8]],
       tx := [] : AircraftSocComms
     }).CheckMessages.CheckMessages.receivedPayload = [5, 6, 7, 8] ∧
    ∀ k,
      (({ messageReceived := false, receivedMessage := .ModeCommand,
          receivedPayload := [],
          rx := [encodeFrame .Configuration [1], encodeFrame .EffectorCommand [5, 6, 7, 8]],
          tx := [] : AircraftSocComms
        }).CheckMessages.CheckMessages.tryReceive k).1 = none ∨
      (({ messageReceived := false, receivedMessage := .ModeCommand,
          receivedPayload := [],
          rx := [encodeFrame .Configuration [1], encodeFrame .EffectorCommand [5, 6, 7, 8]],
          tx := [] : AircraftSocComms
        }).CheckMessages.CheckMessages.tryReceive k).1 = some [5, 6, 7, 8] :=
  mailbox_single_slot_overwrite _ .Configuration .EffectorCommand [1] [5, 6, 7, 8]
    (by decide) (by decide) rfl

/-- C7: round-trip — a `send(kind, payload)` observed by the peer's `pump()`
and then `tryReceive(kind)` yields the payload byte-for-byte, for every kind
and every payload up to the maximum supported length. -/
theorem send_pump_tryReceive_roundtrip (k : Message) (p : List Nat)
    (h : p.length ≤ maxPayloadLength) :
    (({ emptyComms with
          rx := (emptyComms.SendMessage k p).tx }).CheckMessages.tryReceive k).1 =
      some p := by
  simp [emptyComms, AircraftSocComms.SendMessage, AircraftSocComms.CheckMessages,
    decodeFrame_encodeFrame k p h, AircraftSocComms.tryReceive]

theorem send_pump_tryReceive_roundtrip_witness :
    (({ emptyComms with
          rx := (emptyComms.SendMessage .ModeCommand []).tx }).CheckMessages.tryReceive
        .ModeCommand).1 = some [] ∧
    (({ emptyComms with
          rx := (emptyComms.SendMessage .SensorData [42]).tx }).CheckMessages.tryReceive
        .SensorData).1 = some [42] ∧
    (({ emptyComms with
          rx := (emptyComms.SendMessage .EffectorCommand
            (List.replicate maxPayloadLength 7)).tx }).CheckMessages.tryReceive
        .EffectorCommand).1 = some (List.replicate maxPayloadLength 7) :=
  ⟨send_pump_tryReceive_roundtrip .ModeCommand [] (by simp),
   send_pump_tryReceive_roundtrip .SensorData [42] (by simp [maxPayloadLength]),
   send_pump_tryReceive_roundtrip .EffectorCommand (List.replicate maxPayloadLength 7)
     (by simp)⟩

theorem chunk4_isSome_iff (p : List Nat) : (chunk4 p).isSome ↔ p.length % 4 = 0 := by
  induction p using chunk4.induct with
  | case1 => simp [chunk4]
  | case2 a b c d rest ih =>
    simp only [chunk4, List.length_cons]
    cases h : chunk4 rest <;> simp [h] at ih ⊢ <;> omega
  | case3 t h1 h2 =>
    rcases t with _ | ⟨a, _ | ⟨b, _ | ⟨c, _ | ⟨d, rest⟩⟩⟩⟩
    · exact absurd rfl h1
    · simp [show chunk4 [a] = none from rfl]
    · simp [show chunk4 [a, b] = none from rfl]
    · simp [show chunk4 [a, b, c] = none from rfl]
    · exact absurd rfl (h2 a b c d rest)

theorem chunk4_some_spec (p : List Nat) (l : List FloatWord)
    (h : chunk4 p = some l) : l.length = p.length / 4 ∧ flatten4 l = p := by
  induction p using chunk4.induct generalizing l with
  | case1 =>
    simp [chunk4] at h
    subst h
    simp [flatten4]
  | case2 a b c d rest ih =>
    simp only [chunk4, Option.map_eq_some'] at h
    obtain ⟨l', hl', rfl⟩ := h
    obtain ⟨hlen, hflat⟩ := ih l' hl'
    constructor
    · simp only [List.length_cons, hlen]
      omega
    · simp [flatten4, hflat]
  | case3 t h1 h2 =>
    rcases t with _ | ⟨a, _ | ⟨b, _ | ⟨c, _ | ⟨d, rest⟩⟩⟩⟩
    · exact absurd rfl h1
    · simp [show chunk4 [a] = none from rfl] at h
    · simp [show chunk4 [a, b] = none from rfl] at h
    · simp [show chunk4 [a, b, c] = none from rfl] at h
    · exact absurd rfl (h2 a b c d rest)

theorem chunk4_eq_none_of_mod (p : List Nat) (h : p.length % 4 ≠ 0) :
    chunk4 p = none := by
  cases hc : chunk4 p with
  | none => rfl
  | some l =>
    exact absurd ((chunk4_isSome_iff p).mp (by simp [hc])) h

theorem syncStep_events {st : AircraftMission.State} {s : Sys} {e : Ev}
    (h : e ∈ (syncStep st s).2) :
    e = Ev.clearImuDataReady ∨ e = Ev.readSyncSensors ∨
      ∃ b, e = Ev.sendSensorData b := by
  unfold syncStep at h
  split at h
  · simp only [List.mem_cons, List.not_mem_nil, or_false] at h
    rcases h with rfl | rfl | rfl
    · exact Or.inl rfl
    · exact Or.inr (Or.inl rfl)
    · exact Or.inr (Or.inr ⟨_, rfl⟩)
  · simp at h

theorem asyncStep_events {st : AircraftMission.State} {s : Sys} {e : Ev}
    (h : e ∈ (asyncStep st s).2) : e = Ev.readAsyncSensors := by
  unfold asyncStep at h
  split at h <;> simp at h
  exact h

theorem fcStep_events {st : AircraftMission.State} {s : Sys} {e : Ev}
    (h : e ∈ (fcStep st s).2) :
    e = Ev.clearFlightControlFlag ∨ (∃ i, e = Ev.controlRun i) ∨
      ∃ t, e = Ev.computeOutputs t := by
  unfold fcStep at h
  split at h
  · simp only [List.mem_cons, List.mem_append, List.mem_map,
      List.not_mem_nil, or_false] at h
    rcases h with rfl | ⟨i, _, rfl⟩ | rfl
    · exact Or.inl rfl
    · exact Or.inr (Or.inl ⟨i, rfl⟩)
    · exact Or.inr (Or.inr ⟨_, rfl⟩)
  · simp at h

theorem eoStep_events {st : AircraftMission.State} {s : Sys} {e : Ev}
    (h : e ∈ (eoStep st s).2) :
    e = Ev.clearEffectorOutputFlag ∨ e = Ev.commandEffectors := by
  unfold eoStep at h
  split at h
  · simp only [List.mem_cons, List.not_mem_nil, or_false] at h
    exact h
  · simp at h

theorem socEffStep_events {s : Sys} {e : Ev} (h : e ∈ (socEffStep s).2) :
    e = Ev.tryReceiveCall .EffectorCommand ∨
      ∃ cmds t, e = Ev.setCommands cmds t := by
  simp only [socEffStep] at h
  split at h
  · split at h
    · simp only [List.mem_cons, List.not_mem_nil, or_false] at h
      rcases h with rfl | rfl
      · exact Or.inl rfl
      · exact Or.inr ⟨_, _, rfl⟩
    · simp only [List.mem_cons, List.not_mem_nil, or_false] at h
      exact Or.inl h
  · simp only [List.mem_cons, List.not_mem_nil, or_false] at h
    exact Or.inl h

theorem configStep_events {s : Sys} {e : Ev} (h : e ∈ (configStep s).2) :
    e = Ev.tryReceiveCall .Configuration ∨ ∃ cfg, e = Ev.configUpdate cfg := by
  simp only [configStep] at h
  split at h
  · simp only [List.mem_cons, List.not_mem_nil, or_false] at h
    rcases h with rfl | rfl
    · exact Or.inl rfl
    · exact Or.inr ⟨_, rfl⟩
  · simp only [List.mem_cons, List.not_mem_nil, or_false] at h
    exact Or.inl h

theorem modeCmdStep_events {s : Sys} {e : Ev} (h : e ∈ (modeCmdStep s).2) :
    e = Ev.tryReceiveCall .ModeCommand ∨ ∃ md, e = Ev.setRequestedMode md := by
  simp only [modeCmdStep] at h
  split at h
  · simp only [List.mem_cons, List.not_mem_nil, or_false] at h
    rcases h with rfl | rfl
    · exact Or.inl rfl
    · exact Or.inr ⟨_, rfl⟩
  · simp only [List.mem_cons, List.not_mem_nil, or_false] at h
    exact Or.inl h

theorem runStates_events {s : Sys} {e : Ev} (h : e ∈ (runStates s).2) :
    e = Ev.updateState ∨ e = Ev.clearImuDataReady ∨ e = Ev.readSyncSensors ∨
      (∃ b, e = Ev.sendSensorData b) ∨ e = Ev.readAsyncSensors ∨
      e = Ev.clearFlightControlFlag ∨ (∃ i, e = Ev.controlRun i) ∨
      (∃ t, e = Ev.computeOutputs t) ∨ e = Ev.clearEffectorOutputFlag ∨
      e = Ev.commandEffectors ∨ e = Ev.tryReceiveCall .EffectorCommand ∨
      ∃ cmds t, e = Ev.setCommands cmds t := by
  simp only [runStates, List.mem_cons, List.mem_append] at h
  rcases h with rfl | ((((h | h) | h) | h) | h)
  · exact Or.inl rfl
  · rcases syncStep_events h with rfl | rfl | ⟨b, rfl⟩
    · exact Or.inr (Or.inl rfl)
    · exact Or.inr (Or.inr (Or.inl rfl))
    · exact Or.inr (Or.inr (Or.inr (Or.inl ⟨b, rfl⟩)))
  · rcases asyncStep_events h with rfl
    exact Or.inr (Or.inr (Or.inr (Or.inr (Or.inl rfl))))
  · rcases fcStep_events h with rfl | ⟨i, rfl⟩ | ⟨t, rfl⟩
    · exact Or.inr (Or.inr (Or.inr (Or.inr (Or.inr (Or.inl rfl)))))
    · exact Or.inr (Or.inr (Or.inr (Or.inr (Or.inr (Or.inr (Or.inl ⟨i, rfl⟩))))))
    · exact Or.inr (Or.inr (Or.inr (Or.inr (Or.inr (Or.inr (Or.inr
        (Or.inl ⟨t, rfl⟩)))))))
  · rcases eoStep_events h with rfl | rfl
    · exact Or.inr (Or.inr (Or.inr (Or.inr (Or.inr (Or.inr (Or.inr (Or.inr
        (Or.inl rfl))))))))
    · exact Or.inr (Or.inr (Or.inr (Or.inr (Or.inr (Or.inr (Or.inr (Or.inr
        (Or.inr (Or.inl rfl)))))))))
  · rcases socEffStep_events h with rfl | ⟨cmds, t, rfl⟩
    · exact Or.inr (Or.inr (Or.inr (Or.inr (Or.inr (Or.inr (Or.inr (Or.inr
        (Or.inr (Or.inr (Or.inl rfl))))))))))
    · exact Or.inr (Or.inr (Or.inr (Or.inr (Or.inr (Or.inr (Or.inr (Or.inr
        (Or.inr (Or.inr (Or.inr ⟨cmds, t, rfl⟩))))))))))

theorem countP_eq_zero_of_events {l : List Ev} {p : Ev → Bool}
    (h : ∀ e ∈ l, p e = false) : l.countP p = 0 :=
  List.countP_eq_zero.mpr (by simpa using h)

theorem countP_runStates_zero (s : Sys) (p : Ev → Bool)
    (h1 : p .updateState = false) (h2 : p .clearImuDataReady = false)
    (h3 : p .readSyncSensors = false) (h4 : ∀ b, p (.sendSensorData b) = false)
    (h5 : p .readAsyncSensors = false) (h6 : p .clearFlightControlFlag = false)
    (h7 : ∀ i, p (.controlRun i) = false) (h8 : ∀ t, p (.computeOutputs t) = false)
    (h9 : p .clearEffectorOutputFlag = false) (h10 : p .commandEffectors = false)
    (h11 : p (.tryReceiveCall .EffectorCommand) = false)
    (h12 : ∀ c t, p (.setCommands c t) = false) :
    ((runStates s).2).countP p = 0 :=
  countP_eq_zero_of_events (fun e he => by
    rcases runStates_events he with rfl | rfl | rfl | ⟨b, rfl⟩ | rfl | rfl |
      ⟨i, rfl⟩ | ⟨t, rfl⟩ | rfl | rfl | rfl | ⟨c, t, rfl⟩
    · exact h1
    · exact h2
    · exact h3
    · exact h4 b
    · exact h5
    · exact h6
    · exact h7 i
    · exact h8 t
    · exact h9
    · exact h10
    · exact h11
    · exact h12 c t)

theorem countP_configStep_zero (s : Sys) (p : Ev → Bool)
    (h1 : p (.tryReceiveCall .Configuration) = false)
    (h2 : ∀ cfg, p (.configUpdate cfg) = false) :
    ((configStep s).2).countP p = 0 :=
  countP_eq_zero_of_events (fun e he => by
    rcases configStep_events he with rfl | ⟨cfg, rfl⟩
    · exact h1
    · exact h2 cfg)

theorem countP_modeCmdStep_zero (s : Sys) (p : Ev → Bool)
    (h1 : p (.tryReceiveCall .ModeCommand) = false)
    (h2 : ∀ md, p (.setRequestedMode md) = false) :
    ((modeCmdStep s).2).countP p = 0 :=
  countP_eq_zero_of_events (fun e he => by
    rcases modeCmdStep_events he with rfl | ⟨md, rfl⟩
    · exact h1
    · exact h2 md)

theorem countP_tryReceive_modeCmdStep (s : Sys) :
    ((modeCmdStep s).2).countP (isTryReceive .ModeCommand) = 1 := by
  simp only [modeCmdStep]
  split <;> simp [isTryReceive, List.countP_cons]

theorem countP_tryReceive_configStep (s : Sys) :
    ((configStep s).2).countP (isTryReceive .Configuration) = 1 := by
  simp only [configStep]
  split <;> simp [isTryReceive, List.countP_cons]

theorem countP_tryReceive_socEffStep (s : Sys) :
    ((socEffStep s).2).countP (isTryReceive .EffectorCommand) = 1 := by
  simp only [socEffStep]
  split
  · split <;> simp [isTryReceive, List.countP_cons]
  · simp [isTryReceive, List.countP_cons]

theorem countP_tryReceive_runStates (s : Sys) :
    ((runStates s).2).countP (isTryReceive .EffectorCommand) = 1 := by
  simp only [runStates, List.countP_cons, List.countP_append]
  rw [countP_tryReceive_socEffStep]
  have z1 : ∀ st s', ((syncStep st s').2).countP (isTryReceive .EffectorCommand) = 0 :=
    fun st s' => countP_eq_zero_of_events (fun e he => by
      rcases syncStep_events he with rfl | rfl | ⟨b, rfl⟩ <;> rfl)
  have z2 : ∀ st s', ((asyncStep st s').2).countP (isTryReceive .EffectorCommand) = 0 :=
    fun st s' => countP_eq_zero_of_events (fun e he => by
      rcases asyncStep_events he with rfl; rfl)
  have z3 : ∀ st s', ((fcStep st s').2).countP (isTryReceive .EffectorCommand) = 0 :=
    fun st s' => countP_eq_zero_of_events (fun e he => by
      rcases fcStep_events he with rfl | ⟨i, rfl⟩ | ⟨t, rfl⟩ <;> rfl)
  have z4 : ∀ st s', ((eoStep st s').2).countP (isTryReceive .EffectorCommand) = 0 :=
    fun st s' => countP_eq_zero_of_events (fun e he => by
      rcases eoStep_events he with rfl | rfl <;> rfl)
  simp [z1, z2, z3, z4, isTryReceive]


theorem getLast_shape (x : Ev) (A B C : List Ev) :
    (x :: (A ++ B ++ C ++ [Ev.pump])).getLast? = some Ev.pump := by
  rw [show x :: (A ++ B ++ C ++ [Ev.pump]) = (x :: (A ++ B ++ C)) ++ [Ev.pump] by simp]
  exact List.getLast?_concat _

/-- C8 (amended): in every iteration the mode transition comes first, the
states are evaluated next, and the mailbox is serviced exactly once — one
`tryReceive` per message kind of interest for the current mode, with the
single `pump()` as the iteration's final action (each `tryReceive` therefore
consumes the frame pumped at the end of the previous iteration). -/
theorem mailbox_serviced_once_per_iteration (s : Sys) :
    ((loopBody s).2).head? = some Ev.updateMode ∧
    ((loopBody s).2).getLast? = some Ev.pump ∧
    ((loopBody s).2).countP isPump = 1 ∧
    ((loopBody s).2).countP (isTryReceive .ModeCommand) = 1 ∧
    ((loopBody s).2).countP (isTryReceive .EffectorCommand) =
      (if s.mission.requestedMode = .Run then 1 else 0) ∧
    ((loopBody s).2).countP (isTryReceive .Configuration) =
      (if s.mission.requestedMode = .Configuration then 1 else 0) := by
  have hp1 : ∀ s', ((runStates s').2).countP isPump = 0 := fun s' =>
    countP_runStates_zero s' isPump rfl rfl rfl (fun _ => rfl) rfl rfl
      (fun _ => rfl) (fun _ => rfl) rfl rfl rfl (fun _ _ => rfl)
  have hp2 : ∀ s', ((configStep s').2).countP isPump = 0 := fun s' =>
    countP_configStep_zero s' isPump rfl (fun _ => rfl)
  have hp3 : ∀ s', ((modeCmdStep s').2).countP isPump = 0 := fun s' =>
    countP_modeCmdStep_zero s' isPump rfl (fun _ => rfl)
  have hm1 : ∀ s', ((runStates s').2).countP (isTryReceive .ModeCommand) = 0 := fun s' =>
    countP_runStates_zero s' _ rfl rfl rfl (fun _ => rfl) rfl rfl
      (fun _ => rfl) (fun _ => rfl) rfl rfl rfl (fun _ _ => rfl)
  have hm2 : ∀ s', ((configStep s').2).countP (isTryReceive .ModeCommand) = 0 := fun s' =>
    countP_configStep_zero s' _ rfl (fun _ => rfl)
  have he2 : ∀ s', ((configStep s').2).countP (isTryReceive .EffectorCommand) = 0 := fun s' =>
    countP_configStep_zero s' _ rfl (fun _ => rfl)
  have he3 : ∀ s', ((modeCmdStep s').2).countP (isTryReceive .EffectorCommand) = 0 := fun s' =>
    countP_modeCmdStep_zero s' _ rfl (fun _ => rfl)
  have hc1 : ∀ s', ((runStates s').2).countP (isTryReceive .Configuration) = 0 := fun s' =>
    countP_runStates_zero s' _ rfl rfl rfl (fun _ => rfl) rfl rfl
      (fun _ => rfl) (fun _ => rfl) rfl rfl rfl (fun _ _ => rfl)
  have hc3 : ∀ s', ((modeCmdStep s').2).countP (isTryReceive .Configuration) = 0 := fun s' =>
    countP_modeCmdStep_zero s' _ rfl (fun _ => rfl)
  refine ⟨rfl, ?_, ?_, ?_, ?_, ?_⟩
  · simp only [loopBody]
    exact getLast_shape _ _ _ _
  · rcases hm : s.mission.requestedMode with _ | _ <;>
      simp [loopBody, AircraftMission.UpdateMode, hm, List.countP_cons,
        List.countP_append, hp1, hp2, hp3, isPump]
  · rcases hm : s.mission.requestedMode with _ | _ <;>
      simp [loopBody, AircraftMission.UpdateMode, hm, List.countP_cons,
        List.countP_append, hm1, hm2, countP_tryReceive_modeCmdStep,
        isTryReceive]
  · rcases hm : s.mission.requestedMode with _ | _ <;>
      simp [loopBody, AircraftMission.UpdateMode, hm, List.countP_cons,
        List.countP_append, he2, he3, countP_tryReceive_runStates,
        isTryReceive]
  · rcases hm : s.mission.requestedMode with _ | _ <;>
      simp [loopBody, AircraftMission.UpdateMode, hm, List.countP_cons,
        List.countP_append, hc1, hc3, countP_tryReceive_configStep,
        isTryReceive]

theorem countP_controlRun_map_zero (p : Ev → Bool) (h : ∀ i, p (.controlRun i) = false)
    (L : Nat) : ((List.range L).map Ev.controlRun).countP p = 0 :=
  countP_eq_zero_of_events (fun e he => by
    obtain ⟨i, _, rfl⟩ := List.mem_map.mp he
    exact h i)

theorem loopBody_quiet (s : Sys) (hreq : s.mission.requestedMode = .Run)
    (hmr : s.comms.messageReceived = false) (hrx : s.comms.rx = []) :
    (loopBody s).1.mission.requestedMode = .Run ∧
    (loopBody s).1.comms.messageReceived = false ∧
    (loopBody s).1.comms.rx = [] ∧
    (loopBody s).1.mission.imuDataReady = false ∧
    (loopBody s).1.mission.flightControlFlag =
      (if s.mission.imuDataReady then s.mission.flightControlFlag else false) ∧
    (loopBody s).1.mission.effectorOutputFlag =
      (if s.mission.imuDataReady || s.mission.flightControlFlag
        then s.mission.effectorOutputFlag else false) ∧
    ((loopBody s).2).countP isClearFC =
      (if !s.mission.imuDataReady && s.mission.flightControlFlag then 1 else 0) ∧
    ((loopBody s).2).countP isClearEO =
      (if !s.mission.imuDataReady && !s.mission.flightControlFlag &&
          s.mission.effectorOutputFlag then 1 else 0) := by
  rcases himu : s.mission.imuDataReady with _ | _ <;>
    rcases hfc : s.mission.flightControlFlag with _ | _ <;>
      rcases heo : s.mission.effectorOutputFlag with _ | _ <;>
        refine ⟨?_, ?_, ?_, ?_, ?_, ?_, ?_, ?_⟩ <;>
          simp [loopBody, runStates, syncStep, asyncStep, fcStep, eoStep,
            socEffStep, configStep, modeCmdStep, AircraftMission.UpdateMode,
            AircraftMission.UpdateState, AircraftMission.ClearImuDataReady,
            AircraftMission.ClearFlightControlFlag,
            AircraftMission.ClearEffectorOutputFlag,
            AircraftMission.SetRequestedMode,
            AircraftSocComms.ReceiveEffectorCommand,
            AircraftSocComms.ReceiveModeCommand,
            AircraftSocComms.ReceiveConfigMessage,
            AircraftSocComms.tryReceiveDecoded, AircraftSocComms.CheckMessages,
            AircraftSocComms.SendSensorData, AircraftSocComms.SendMessage,
            hreq, hmr, hrx, himu, hfc, heo, List.countP_cons, List.countP_append,
            countP_controlRun_map_zero, isClearFC, isClearEO]

theorem runN_succ (n : Nat) (s : Sys) :
    runN (n + 1) s = ((runN n (loopBody s).1).1, (loopBody s).2 ++ (runN n (loopBody s).1).2) := rfl

theorem runN_quiet_zero (m : Nat) (s : Sys) (hreq : s.mission.requestedMode = .Run)
    (hmr : s.comms.messageReceived = false) (hrx : s.comms.rx = [])
    (himu : s.mission.imuDataReady = false)
    (hfc : s.mission.flightControlFlag = false)
    (heo : s.mission.effectorOutputFlag = false) :
    ((runN m s).2).countP isClearFC = 0 ∧ ((runN m s).2).countP isClearEO = 0 := by
  induction m generalizing s with
  | zero => simp [runN]
  | succ m ih =>
    obtain ⟨q1, q2, q3, q4, q5, q6, q7, q8⟩ := loopBody_quiet s hreq hmr hrx
    simp only [himu, hfc, heo] at q5 q6 q7 q8
    simp at q5 q6 q7 q8
    obtain ⟨i1, i2⟩ := ih (loopBody s).1 q1 q2 q3 q4 q5 q6
    rw [runN_succ]
    constructor <;> simp [List.countP_append, i1, i2] <;> first | exact q7 | exact q8

theorem runN3_counts (m : Nat) (s : Sys) (hreq : s.mission.requestedMode = .Run)
    (hmr : s.comms.messageReceived = false) (hrx : s.comms.rx = []) :
    ((runN (m + 3) s).2).countP isClearFC =
      (if s.mission.flightControlFlag then 1 else 0) ∧
    ((runN (m + 3) s).2).countP isClearEO =
      (if s.mission.effectorOutputFlag then 1 else 0) := by
  obtain ⟨a1, a2, a3, a4, a5, a6, a7, a8⟩ := loopBody_quiet s hreq hmr hrx
  obtain ⟨b1, b2, b3, b4, b5, b6, b7, b8⟩ := loopBody_quiet (loopBody s).1 a1 a2 a3
  obtain ⟨c1, c2, c3, c4, c5, c6, c7, c8⟩ :=
    loopBody_quiet (loopBody (loopBody s).1).1 b1 b2 b3
  have htr : (runN (m + 3) s).2 =
      (loopBody s).2 ++ ((loopBody (loopBody s).1).2 ++
        ((loopBody (loopBody (loopBody s).1).1).2 ++
          (runN m (loopBody (loopBody (loopBody s).1).1).1).2)) := rfl
  rcases himu : s.mission.imuDataReady with _ | _ <;>
    rcases hf0 : s.mission.flightControlFlag with _ | _ <;>
      rcases he0 : s.mission.effectorOutputFlag with _ | _ <;>
  · simp only [himu, hf0, he0] at a5 a6 a7 a8
    simp [-List.countP_eq_zero] at a5 a6 a7 a8
    simp only [a4, a5, a6] at b5 b6 b7 b8
    simp [-List.countP_eq_zero] at b5 b6 b7 b8
    simp only [b4, b5, b6] at c5 c6 c7 c8
    simp [-List.countP_eq_zero] at c5 c6 c7 c8
    obtain ⟨t1, t2⟩ := runN_quiet_zero m _ c1 c2 c3 c4
      (by simp [c5, b4]) (by simp [c6, b4, b5])
    rw [htr]
    simp [List.countP_append, -List.countP_eq_zero, a7, a8, b7, b8, c7, c8, t1, t2]

/-- C1: edge-trigger discipline — from any Run-mode state with a quiet mailbox
and no fresh external events, the FlightControl (resp. EffectorOutput) handler
runs exactly once over any run of at least three iterations iff its flag was
pending, never re-entering afterwards; and whenever either handler fires, its
very first action is to clear its flag, leaving the flag clear in the
resulting state. -/
theorem fc_eo_edge_trigger (s : Sys) (n : Nat)
    (hreq : s.mission.requestedMode = .Run)
    (hmr : s.comms.messageReceived = false) (hrx : s.comms.rx = [])
    (hn : 3 ≤ n) :
    ((runN n s).2).countP isClearFC =
      (if s.mission.flightControlFlag then 1 else 0) ∧
    ((runN n s).2).countP isClearEO =
      (if s.mission.effectorOutputFlag then 1 else 0) ∧
    (∀ st s', st = AircraftMission.State.FlightControl →
      ((fcStep st s').2).head? = some Ev.clearFlightControlFlag ∧
      (fcStep st s').1.mission.flightControlFlag = false) ∧
    (∀ st s', st = AircraftMission.State.EffectorOutput →
      ((eoStep st s').2).head? = some Ev.clearEffectorOutputFlag ∧
      (eoStep st s').1.mission.effectorOutputFlag = false) := by
  obtain ⟨m, rfl⟩ : ∃ m, n = m + 3 := ⟨n - 3, by omega⟩
  obtain ⟨hFC, hEO⟩ := runN3_counts m s hreq hmr hrx
  refine ⟨hFC, hEO, ?_, ?_⟩
  · rintro st s' rfl
    constructor
    · simp [fcStep]
    · simp [fcStep, AircraftMission.ClearFlightControlFlag]
  · rintro st s' rfl
    constructor
    · simp [eoStep]
    · simp [eoStep, AircraftMission.ClearEffectorOutputFlag]

/-- A Run-mode state with both edge-trigger flags pending and a quiet mailbox. -/
def edgeSys : Sys :=
  { mission := { mode := .Run, requestedMode := .Run, imuDataReady := false,
                 flightControlFlag := true, effectorOutputFlag := true,
                 state := .AsyncDataCollection }
    comms := emptyComms
    activeControlLevels := 1
    throttleSafed := false
    useSocEffectorCommands := false
    dataBuffer := [3] }

theorem fc_eo_edge_trigger_witness :
    ((runN 3 edgeSys).2).countP isClearFC =
      (if edgeSys.mission.flightControlFlag then 1 else 0) ∧
    ((runN 3 edgeSys).2).countP isClearEO =
      (if edgeSys.mission.effectorOutputFlag then 1 else 0) ∧
    (∀ st s', st = AircraftMission.State.FlightControl →
      ((fcStep st s').2).head? = some Ev.clearFlightControlFlag ∧
      (fcStep st s').1.mission.flightControlFlag = false) ∧
    (∀ st s', st = AircraftMission.State.EffectorOutput →
      ((eoStep st s').2).head? = some Ev.clearEffectorOutputFlag ∧
      (eoStep st s').1.mission.effectorOutputFlag = false) :=
  fc_eo_edge_trigger edgeSys 3 rfl rfl rfl (by omega)

/-- C4 (amended): in a Run-mode iteration `Sensors.ReadAsyncSensors` is
invoked exactly once iff the scheduler selected `AsyncDataCollection`, i.e.
iff no flag-gated state (IMU-ready, flight control, effector output) was
pending; when another state fires, the asynchronous read is skipped for that
iteration. -/
theorem async_fires_iff_no_flag (s : Sys) (hreq : s.mission.requestedMode = .Run) :
    ((loopBody s).2).countP isReadAsync =
      (if !s.mission.imuDataReady && !s.mission.flightControlFlag &&
          !s.mission.effectorOutputFlag then 1 else 0) := by
  have hsoc : ∀ s', ((socEffStep s').2).countP isReadAsync = 0 := fun s' =>
    countP_eq_zero_of_events (fun e he => by
      rcases socEffStep_events he with rfl | ⟨c, t, rfl⟩ <;> rfl)
  have hmc : ∀ s', ((modeCmdStep s').2).countP isReadAsync = 0 := fun s' =>
    countP_modeCmdStep_zero s' _ rfl (fun _ => rfl)
  rcases himu : s.mission.imuDataReady with _ | _ <;>
    rcases hfc : s.mission.flightControlFlag with _ | _ <;>
      rcases heo : s.mission.effectorOutputFlag with _ | _ <;>
        simp [loopBody, runStates, syncStep, asyncStep, fcStep, eoStep,
          AircraftMission.UpdateMode, AircraftMission.UpdateState,
          AircraftMission.ClearImuDataReady, AircraftMission.ClearFlightControlFlag,
          AircraftMission.ClearEffectorOutputFlag, hreq, himu, hfc, heo,
          List.countP_cons, List.countP_append, hsoc, hmc,
          countP_controlRun_map_zero, isReadAsync, -List.countP_eq_zero] <;>
        exact List.countP_eq_zero.mpr (fun i _ => by simp [isReadAsync])

/-- A Run-mode state with only the flight-control flag pending. -/
def fcPendingSys : Sys :=
  { mission := { mode := .Run, requestedMode := .Run, imuDataReady := false,
                 flightControlFlag := true, effectorOutputFlag := false,
                 state := .AsyncDataCollection }
    comms := emptyComms
    activeControlLevels := 1
    throttleSafed := false
    useSocEffectorCommands := false
    dataBuffer := [] }

/-- C4 (counterexample): a concrete Run-mode iteration in which FlightControl
fires (its flag clear is in the trace) and `ReadAsyncSensors` is not invoked,
refuting the claim that the asynchronous read happens unconditionally in every
Run iteration. -/
theorem async_skipped_when_flightcontrol_fires :
    fcPendingSys.mission.requestedMode = .Run ∧
    ((loopBody fcPendingSys).2).countP isClearFC = 1 ∧
    Ev.readAsyncSensors ∉ (loopBody fcPendingSys).2 := by decide

/-- A Run-mode state with no flags pending and a quiet mailbox. -/
def quietRunSys : Sys :=
  { mission := { mode := .Run, requestedMode := .Run, imuDataReady := false,
                 flightControlFlag := false, effectorOutputFlag := false,
                 state := .AsyncDataCollection }
    comms := emptyComms
    activeControlLevels := 2
    throttleSafed := false
    useSocEffectorCommands := true
    dataBuffer := [1, 2] }

/-- C8 (counterexample): in a concrete iteration both a `tryReceive` poll and
the `pump()` occur, but the pump does not precede the tryReceive — `main.cpp`
calls `CheckMessages()` at the end of the loop body, after the typed receive
calls, refuting the claimed pump-then-tryReceive order within an iteration. -/
theorem pump_after_tryReceive_counterexample :
    Ev.pump ∈ (loopBody quietRunSys).2 ∧
    Ev.tryReceiveCall .ModeCommand ∈ (loopBody quietRunSys).2 ∧
    ¬ (loopBody quietRunSys).2.indexOf Ev.pump <
        (loopBody quietRunSys).2.indexOf (Ev.tryReceiveCall .ModeCommand) := by
  decide

/-- C3: mode gating — in a Run-mode iteration `Config.Update` is never called
(a pending Configuration message is serviced only in Configuration mode, where
it is handed to the configuration collaborator); and in every iteration,
whatever the mode, a pending well-formed ModeCommand message is received and
staged via `SetRequestedMode`. -/
theorem mode_gating (s : Sys) :
    (s.mission.requestedMode = .Run →
      ((loopBody s).2).countP isConfigUpdate = 0) ∧
    (s.mission.requestedMode = .Configuration →
      s.comms.messageReceived = true →
      s.comms.receivedMessage = .Configuration →
      Ev.configUpdate s.comms.receivedPayload ∈ (loopBody s).2) ∧
    (∀ b md, s.comms.messageReceived = true →
      s.comms.receivedMessage = .ModeCommand →
      s.comms.receivedPayload = [b] →
      decodeModeByte b = some md →
      Ev.setRequestedMode md ∈ (loopBody s).2 ∧
      (loopBody s).1.mission.requestedMode = md) := by
  refine ⟨?_, ?_, ?_⟩
  · intro hreq
    have h1 : ∀ s', ((runStates s').2).countP isConfigUpdate = 0 := fun s' =>
      countP_runStates_zero s' _ rfl rfl rfl (fun _ => rfl) rfl rfl
        (fun _ => rfl) (fun _ => rfl) rfl rfl rfl (fun _ _ => rfl)
    have h3 : ∀ s', ((modeCmdStep s').2).countP isConfigUpdate = 0 := fun s' =>
      countP_modeCmdStep_zero s' _ rfl (fun _ => rfl)
    simp [loopBody, AircraftMission.UpdateMode, hreq, List.countP_cons,
      List.countP_append, h1, h3, isConfigUpdate, -List.countP_eq_zero]
  · intro hm hmr hkind
    simp [loopBody, configStep, modeCmdStep, AircraftMission.UpdateMode,
      AircraftSocComms.ReceiveConfigMessage, AircraftSocComms.ReceiveModeCommand,
      AircraftSocComms.tryReceiveDecoded, hm, hmr, hkind]
  · intro b md hmr hkind hpay hdec
    rcases hm : s.mission.requestedMode with _ | _
    · simp [loopBody, configStep, modeCmdStep, AircraftMission.UpdateMode,
        AircraftMission.SetRequestedMode, AircraftSocComms.ReceiveConfigMessage,
        AircraftSocComms.ReceiveModeCommand, AircraftSocComms.tryReceiveDecoded,
        AircraftSocComms.CheckMessages, decodeModePayload,
        hm, hmr, hkind, hpay, hdec]
    · rcases himu : s.mission.imuDataReady with _ | _ <;>
        rcases hfc : s.mission.flightControlFlag with _ | _ <;>
          rcases heo : s.mission.effectorOutputFlag with _ | _ <;>
            simp [loopBody, runStates, syncStep, asyncStep, fcStep, eoStep,
              socEffStep, configStep, modeCmdStep, AircraftMission.UpdateMode,
              AircraftMission.UpdateState, AircraftMission.ClearImuDataReady,
              AircraftMission.ClearFlightControlFlag,
              AircraftMission.ClearEffectorOutputFlag,
              AircraftMission.SetRequestedMode,
              AircraftSocComms.ReceiveEffectorCommand,
              AircraftSocComms.ReceiveModeCommand,
              AircraftSocComms.tryReceiveDecoded, AircraftSocComms.CheckMessages,
              AircraftSocComms.SendSensorData, AircraftSocComms.SendMessage,
              decodeModePayload, hm, hmr, hkind, hpay, hdec, himu, hfc, heo]

/-- A Configuration-mode state with a pending Configuration message. -/
def cfgPendingSys : Sys :=
  { mission := { mode := .Configuration, requestedMode := .Configuration,
                 imuDataReady := false, flightControlFlag := false,
                 effectorOutputFlag := false, state := .AsyncDataCollection }
    comms := { messageReceived := true, receivedMessage := .Configuration,
               receivedPayload := [7, 8], rx := [], tx := [] }
    activeControlLevels := 0
    throttleSafed := false
    useSocEffectorCommands := false
    dataBuffer := [] }

/-- A Run-mode state with a pending one-byte ModeCommand message. -/
def mcPendingSys : Sys :=
  { mission := { mode := .Run, requestedMode := .Run, imuDataReady := false,
                 flightControlFlag := false, effectorOutputFlag := false,
                 state := .AsyncDataCollection }
    comms := { messageReceived := true, receivedMessage := .ModeCommand,
               receivedPayload := [0], rx := [], tx := [] }
    activeControlLevels := 1
    throttleSafed := false
    useSocEffectorCommands := false
    dataBuffer := [] }

theorem mode_gating_witness :
    ((loopBody quietRunSys).2).countP isConfigUpdate = 0 ∧
    Ev.configUpdate cfgPendingSys.comms.receivedPayload ∈ (loopBody cfgPendingSys).2 ∧
    Ev.setRequestedMode .Configuration ∈ (loopBody mcPendingSys).2 ∧
    (loopBody mcPendingSys).1.mission.requestedMode = .Configuration :=
  ⟨(mode_gating quietRunSys).1 rfl,
   (mode_gating cfgPendingSys).2.1 rfl rfl rfl,
   ((mode_gating mcPendingSys).2.2 0 .Configuration rfl rfl rfl rfl).1,
   ((mode_gating mcPendingSys).2.2 0 .Configuration rfl rfl rfl rfl).2⟩

/-- C6: a pending EffectorCommand whose payload length is not a multiple of 4
makes `ReceiveEffectorCommand` report failure and leave the slot untouched,
and no `Effectors.SetCommands` call happens in that iteration; a payload of
4·n bytes decodes to exactly n float words in payload order (flattening them
restores the payload). -/
theorem effector_command_decode (s : Sys) :
    (s.comms.messageReceived = true →
      s.comms.receivedMessage = .EffectorCommand →
      (s.comms.receivedPayload.length % 4 ≠ 0 →
        s.comms.ReceiveEffectorCommand = (none, s.comms) ∧
        ((loopBody s).2).countP isSetCommands = 0) ∧
      (∀ l, chunk4 s.comms.receivedPayload = some l →
        (s.comms.ReceiveEffectorCommand).1 = some l ∧
        l.length = s.comms.receivedPayload.length / 4 ∧
        flatten4 l = s.comms.receivedPayload)) ∧
    (∀ p : List Nat, (chunk4 p).isSome ↔ p.length % 4 = 0) := by
  refine ⟨?_, chunk4_isSome_iff⟩
  intro hmr hkind
  constructor
  · intro hlen
    have hnone : chunk4 s.comms.receivedPayload = none :=
      chunk4_eq_none_of_mod _ hlen
    constructor
    · simp [AircraftSocComms.ReceiveEffectorCommand,
        AircraftSocComms.tryReceiveDecoded, hmr, hkind, hnone]
    · have hc2 : ∀ s', ((configStep s').2).countP isSetCommands = 0 := fun s' =>
        countP_configStep_zero s' _ rfl (fun _ => rfl)
      have hc3 : ∀ s', ((modeCmdStep s').2).countP isSetCommands = 0 := fun s' =>
        countP_modeCmdStep_zero s' _ rfl (fun _ => rfl)
      rcases hm : s.mission.requestedMode with _ | _
      · simp [loopBody, AircraftMission.UpdateMode, hm, List.countP_cons,
          List.countP_append, hc2, hc3, isSetCommands, -List.countP_eq_zero]
      · rcases himu : s.mission.imuDataReady with _ | _ <;>
          rcases hfc : s.mission.flightControlFlag with _ | _ <;>
            rcases heo : s.mission.effectorOutputFlag with _ | _ <;>
              simp [loopBody, runStates, syncStep, asyncStep, fcStep, eoStep,
                socEffStep, configStep, modeCmdStep, AircraftMission.UpdateMode,
                AircraftMission.UpdateState, AircraftMission.ClearImuDataReady,
                AircraftMission.ClearFlightControlFlag,
                AircraftMission.ClearEffectorOutputFlag,
                AircraftSocComms.ReceiveEffectorCommand,
                AircraftSocComms.ReceiveModeCommand,
                AircraftSocComms.tryReceiveDecoded,
                AircraftSocComms.SendSensorData, AircraftSocComms.SendMessage,
                decodeModePayload, hm, hmr, hkind, hnone, himu, hfc, heo,
                List.countP_cons, List.countP_append, hc2, hc3,
                isSetCommands, -List.countP_eq_zero] <;>
              exact List.countP_eq_zero.mpr (fun i _ => by simp [isSetCommands])
  · intro l hl
    obtain ⟨h1, h2⟩ := chunk4_some_spec _ l hl
    refine ⟨?_, h1, h2⟩
    simp [AircraftSocComms.ReceiveEffectorCommand,
      AircraftSocComms.tryReceiveDecoded, hmr, hkind, hl]

theorem async_fires_iff_no_flag_witness :
    ((loopBody fcPendingSys).2).countP isReadAsync =
      (if !fcPendingSys.mission.imuDataReady &&
          !fcPendingSys.mission.flightControlFlag &&
          !fcPendingSys.mission.effectorOutputFlag then 1 else 0) :=
  async_fires_iff_no_flag fcPendingSys rfl

/-- A Run-mode state with a pending 10-byte EffectorCommand payload. -/
def ecBadSys : Sys :=
  { mission := { mode := .Run, requestedMode := .Run, imuDataReady := false,
                 flightControlFlag := false, effectorOutputFlag := false,
                 state := .AsyncDataCollection }
    comms := { messageReceived := true, receivedMessage := .EffectorCommand,
               receivedPayload := [1, 2, 3, 4, 5, 6, 7, 8, 9, 10], rx := [], tx := [] }
    activeControlLevels := 1
    throttleSafed := false
    useSocEffectorCommands := true
    dataBuffer := [] }

/-- A Run-mode state with a pending 8-byte EffectorCommand payload. -/
def ecGoodSys : Sys :=
  { mission := { mode := .Run, requestedMode := .Run, imuDataReady := false,
                 flightControlFlag := false, effectorOutputFlag := false,
                 state := .AsyncDataCollection }
    comms := { messageReceived := true, receivedMessage := .EffectorCommand,
               receivedPayload := [1, 2, 3, 4, 5, 6, 7, 8], rx := [], tx := [] }
    activeControlLevels := 1
    throttleSafed := false
    useSocEffectorCommands := true
    dataBuffer := [] }

theorem effector_command_decode_witness :
    (ecBadSys.comms.ReceiveEffectorCommand = (none, ecBadSys.comms) ∧
      ((loopBody ecBadSys).2).countP isSetCommands = 0) ∧
    ((ecGoodSys.comms.ReceiveEffectorCommand).1 = some [(1, 2, 3, 4), (5, 6, 7, 8)] ∧
      ([(1, 2, 3, 4), (5, 6, 7, 8)] : List FloatWord).length =
        ecGoodSys.comms.receivedPayload.length / 4 ∧
      flatten4 [(1, 2, 3, 4), (5, 6, 7, 8)] = ecGoodSys.comms.receivedPayload) ∧
    ((chunk4 [1, 2, 3, 4, 5, 6, 7, 8, 9, 10]).isSome ↔
      ([1, 2, 3, 4, 5, 6, 7, 8, 9, 10] : List Nat).length % 4 = 0) :=
  ⟨((effector_command_decode ecBadSys).1 rfl rfl).1 (by decide),
   ((effector_command_decode ecGoodSys).1 rfl rfl).2 [(1, 2, 3, 4), (5, 6, 7, 8)]
     (by decide),
   (effector_command_decode ecBadSys).2 [1, 2, 3, 4, 5, 6, 7, 8, 9, 10]⟩
